import Mathlib

/-!
# Verification of the Website-Up Notification Bot engine

A shallow embedding of `bot.py`: the SQLite-backed subscriber store
(`BotDatabase` and its SQL statements), the transactional connection helper
(`db_conn`), the reachability probe (`check_url_available`), the in-memory
availability tracker (`WebsiteMonitor`), and the probe-and-notify cycle
(`WebsiteMonitorClient.start_monitoring`).
-/

namespace WebsiteUpBot

/-! ## Subscriber store (bot.py lines 13-44, 57-68, 120-155) -/

/-- `MAX_USER_CAP = 10000` (bot.py line 13).  The constant is declared at
module scope and is never referenced anywhere else in the source. -/
def MAX_USER_CAP : Nat := 10000

/-- One row of the `users` table (bot.py lines 15-21).  The `id INTEGER
PRIMARY KEY AUTOINCREMENT` column is omitted: no statement in the source ever
reads or filters on it.  `discord_user_id` is `UNIQUE NOT NULL`;
`is_subscribed BOOLEAN DEFAULT 1` is stored by SQLite as an integer. -/
structure UserRow where
  discord_user_id : Int
  is_subscribed : Int
  deriving DecidableEq, Repr

/-- The `users` table: its rows in insertion order. -/
abbrev Database := List UserRow

/-- An error raised by the sqlite3 driver while an operation runs. -/
inductive StorageError where
  | sqliteError
  deriving DecidableEq, Repr

/-- Outcome of running one operation through `db_conn`: the state the backing
file holds afterwards, and the value returned to (or exception surfaced to)
the caller. -/
structure TxnResult (α : Type) where
  stored : Database
  result : Except StorageError α
  deriving Repr

/-- `db_conn` (bot.py lines 57-68): opens a connection, runs the body, commits
on success; on any exception rolls back, re-raises, and closes.  `body`
returns the database the statements produced plus the fetched value, or the
driver error it raised. -/
def db_conn {α : Type} (db : Database) (body : Database → Except StorageError (Database × α)) :
    TxnResult α :=
  match body db with
  | .ok (db2, a) => { stored := db2, result := .ok a }
  | .error e => { stored := db, result := .error e }

/-- `CREATE_STATEMENT` (lines 15-21): `CREATE TABLE IF NOT EXISTS` leaves an
existing table's rows untouched; the table itself is implicit in the model. -/
def sql_create_table (db : Database) : Database := db

/-- `GET_USER_COUNT_STATEMENT` (lines 23-25): `SELECT COUNT(*) FROM users`,
regardless of `is_subscribed`. -/
def sql_user_count (db : Database) : Nat := db.length

/-- `GET_USER_STATEMENT` (lines 27-30): `SELECT discord_user_id FROM users
WHERE is_subscribed = 1`. -/
def sql_get_subscribed (db : Database) : List Int :=
  (db.filter fun r => r.is_subscribed == 1).map fun r => r.discord_user_id

/-- `EXISTS_USER_STATEMENT` (lines 32-35): `SELECT COUNT(*) FROM users WHERE
discord_user_id = ?`. -/
def sql_exists_user (db : Database) (uid : Int) : Nat :=
  (db.filter fun r => r.discord_user_id == uid).length

/-- `ADD_USER_STATEMENT` (lines 37-39): `INSERT OR IGNORE INTO users
(discord_user_id) VALUES (?)` — ignored when the UNIQUE constraint on
`discord_user_id` would be violated, otherwise inserts a fresh row with the
column default `is_subscribed = 1`. -/
def sql_add_user (db : Database) (uid : Int) : Database :=
  if db.any fun r => r.discord_user_id == uid then db
  else db ++ [{ discord_user_id := uid, is_subscribed := 1 }]

/-- `REMOVE_USER_STATEMENT` (lines 41-44): `DELETE FROM users WHERE
discord_user_id = ?`. -/
def sql_remove_user (db : Database) (uid : Int) : Database :=
  db.filter fun r => !(r.discord_user_id == uid)

/-- `BotDatabase.ensure_created` (lines 124-128): one `db_conn` transaction
executing `CREATE_STATEMENT`. -/
def ensure_created (db : Database) : TxnResult Unit :=
  db_conn db fun d => .ok (sql_create_table d, ())

/-- `BotDatabase.get_user_count` (lines 130-134): one `db_conn` transaction
executing `GET_USER_COUNT_STATEMENT` and fetching the count. -/
def get_user_count (db : Database) : TxnResult Nat :=
  db_conn db fun d => .ok (d, sql_user_count d)

/-- `BotDatabase.get_subscribed_users` (lines 136-139): one `db_conn`
transaction executing `GET_USER_STATEMENT` and fetching all ids. -/
def get_subscribed_users (db : Database) : TxnResult (List Int) :=
  db_conn db fun d => .ok (d, sql_get_subscribed d)

/-- `BotDatabase.subscribe_user` (lines 141-144): one `db_conn` transaction
executing `ADD_USER_STATEMENT`.  Note: no comparison against `MAX_USER_CAP`
appears anywhere in the method. -/
def subscribe_user (db : Database) (uid : Int) : TxnResult Unit :=
  db_conn db fun d => .ok (sql_add_user d uid, ())

/-- `BotDatabase.unsubscribe_user` (lines 146-149): one `db_conn` transaction
executing `REMOVE_USER_STATEMENT`. -/
def unsubscribe_user (db : Database) (uid : Int) : TxnResult Unit :=
  db_conn db fun d => .ok (sql_remove_user d uid, ())

/-- `BotDatabase.is_user_subscribed` (lines 151-155): one `db_conn`
transaction executing `EXISTS_USER_STATEMENT`, returning `count == 1`. -/
def is_user_subscribed (db : Database) (uid : Int) : TxnResult Bool :=
  db_conn db fun d => .ok (d, sql_exists_user d uid == 1)

/-- The `discord_user_id` column of every row, in row order. -/
def row_ids (db : Database) : List Int := db.map fun r => r.discord_user_id

/-- Database states reachable from a fresh (empty) store through the
operations the program performs on it. -/
inductive Reachable : Database → Prop where
  | empty : Reachable []
  | ensure {db : Database} : Reachable db → Reachable (ensure_created db).stored
  | subscribe {db : Database} (uid : Int) :
      Reachable db → Reachable (subscribe_user db uid).stored
  | unsubscribe {db : Database} (uid : Int) :
      Reachable db → Reachable (unsubscribe_user db uid).stored

/-! ## Reachability probe (bot.py lines 70-75) -/

/-- What one call `requests.head(url)` can come to: a response with some
status code, or a raised `requests.RequestException` — connection errors and
timeouts are both subclasses of it. -/
inductive ProbeOutcome where
  | response (status_code : Nat)
  | connectionError
  | timeout
  deriving DecidableEq, Repr

/-- `check_url_available` (lines 70-75): `return response.status_code == 200`,
with every `requests.RequestException` caught and mapped to `False`. -/
def check_url_available : ProbeOutcome → Bool
  | .response c => c == 200
  | .connectionError => false
  | .timeout => false

/-- The keyword arguments an outbound `requests.head` call carries. -/
structure HeadRequest where
  url : String
  timeout : Option Nat
  deriving Repr

/-- The request issued by `check_url_available` (line 72): the source calls
`requests.head(url)` with no `timeout=` argument. -/
def probe_request (url : String) : HeadRequest :=
  { url := url, timeout := none }

/-! ## Availability tracker (bot.py lines 157-174) -/

/-- The `_url_status` dict: an insertion-ordered association of URL to last
observed boolean, as Python dicts behave. -/
abbrev UrlStatus := List (String × Bool)

/-- `WebsiteMonitor.__init__` (lines 158-160): `self._url_status = {}`. -/
def initial_url_status : UrlStatus := []

/-- One dict assignment `self._url_status[url] = a` (lines 165, 167):
overwrites the entry in place when the key is present, else appends the new
key at the end, exactly as a Python dict assignment behaves. -/
def record_status : UrlStatus → String → Bool → UrlStatus
  | [], url, a => [(url, a)]
  | p :: rest, url, a =>
    if p.1 == url then (p.1, a) :: rest else p :: record_status rest url a

/-- `WebsiteMonitor.monitor` (lines 162-167): for each configured URL in
order, probe it and store the boolean result.  `outcome` gives what
`requests.head` does for each URL during this cycle. -/
def monitor : UrlStatus → List String → (String → ProbeOutcome) → UrlStatus
  | m, [], _ => m
  | m, u :: rest, outcome =>
    monitor (record_status m u (check_url_available (outcome u))) rest outcome

/-- The keys of the `_url_status` dict, in dict order. -/
def status_keys (m : UrlStatus) : List String := m.map fun p => p.1

/-- `WebsiteMonitor.url_status_for` (lines 173-174):
`self._url_status.get(url)` — `None` when the URL was never recorded. -/
def url_status_for (m : UrlStatus) (url : String) : Option Bool :=
  (m.find? fun p => p.1 == url).map fun p => p.2

/-! ## Notification dispatch (bot.py lines 335-357) -/

/-- A failure raised while notifying one user: `fetch_user` or `user.send`
raising any exception. -/
inductive DeliveryError where
  | sendFailure
  deriving DecidableEq, Repr

/-- What the per-subscriber loop of `start_monitoring` (lines 345-355) did:
every user it iterated over, and the sublist whose delivery succeeded. -/
structure DispatchLog where
  attempted : List Int
  delivered : List Int
  deriving DecidableEq, Repr

/-- The inner loop of `start_monitoring` (lines 345-355): for each subscribed
user, try to fetch and message them; any exception is caught, printed, and the
loop continues with the next user.  The function is total: no delivery outcome
makes it raise. -/
def notify_subscribers (deliver : Int → Except DeliveryError Unit) :
    List Int → DispatchLog
  | [] => { attempted := [], delivered := [] }
  | u :: rest =>
    let tail := notify_subscribers deliver rest
    match deliver u with
    | .ok _ => { attempted := u :: tail.attempted, delivered := u :: tail.delivered }
    | .error _ => { attempted := u :: tail.attempted, delivered := tail.delivered }

/-- `True` when the modelled `fetch_user` + `user.send` pair succeeded. -/
def delivery_succeeded (r : Except DeliveryError Unit) : Bool :=
  match r with
  | .ok _ => true
  | .error _ => false

/-- The notifications one pass of the dispatch loop (lines 339-355) sends:
for each entry of `url_status` in dict order, if it is available, one message
per subscribed user. -/
def cycle_notifications (m : UrlStatus) (subs : List Int) : List (String × Int) :=
  m.flatMap fun p => if p.2 then subs.map (fun s => (p.1, s)) else []

/-! ## Event trace of one monitor cycle (bot.py lines 335-357) -/

/-- Observable steps of one cycle of `start_monitoring`. -/
inductive Event where
  | probe (url : String)
  | record (url : String) (avail : Bool)
  | dispatch (url : String)
  deriving DecidableEq, Repr

/-- Tell a dispatch step from a probe/record step. -/
def Event.isDispatch : Event → Bool
  | .dispatch _ => true
  | _ => false

/-- The steps `WebsiteMonitor.monitor` performs (lines 162-167): probe each
URL in configured order and record its result, before the method returns. -/
def monitor_events (urls : List String) (outcome : String → ProbeOutcome) : List Event :=
  urls.flatMap fun u => [.probe u, .record u (check_url_available (outcome u))]

/-- The steps the dispatch loop performs (lines 339-355): one dispatch per
available entry of the updated `url_status` dict, in dict order. -/
def dispatch_events (m : UrlStatus) : List Event :=
  m.flatMap fun p => if p.2 then [.dispatch p.1] else []

/-- One full body of the `while True` loop of `start_monitoring` (lines
336-357): `self._website_monitor.monitor()` runs to completion, then the
dispatch loop walks the updated `url_status` dict. -/
def cycle_events (m : UrlStatus) (urls : List String) (outcome : String → ProbeOutcome) :
    List Event :=
  monitor_events urls outcome ++ dispatch_events (monitor m urls outcome)

/-- `e1` occurs strictly before `e2` in the trace `tr`. -/
def event_before (tr : List Event) (e1 e2 : Event) : Prop :=
  tr.findIdx (fun e => e == e1) < tr.findIdx (fun e => e == e2)

/-- A store holding exactly `MAX_USER_CAP` subscribers, with ids
`0, 1, ..., 9999`. -/
def cap_db : Database :=
  (List.range MAX_USER_CAP).map fun (i : Nat) =>
    { discord_user_id := (i : Int), is_subscribed := 1 }

/-! ## Helper lemmas: every `BotDatabase` method is one `db_conn` transaction
whose body never raises in the model, so it commits its statement's result. -/

theorem ensure_created_stored (db : Database) : (ensure_created db).stored = db := rfl

theorem subscribe_user_stored (db : Database) (uid : Int) :
    (subscribe_user db uid).stored = sql_add_user db uid := rfl

theorem subscribe_user_result (db : Database) (uid : Int) :
    (subscribe_user db uid).result = .ok () := rfl

theorem unsubscribe_user_stored (db : Database) (uid : Int) :
    (unsubscribe_user db uid).stored = sql_remove_user db uid := rfl

theorem get_user_count_result (db : Database) :
    (get_user_count db).result = .ok (sql_user_count db) := rfl

theorem get_subscribed_users_result (db : Database) :
    (get_subscribed_users db).result = .ok (sql_get_subscribed db) := rfl

theorem is_user_subscribed_result (db : Database) (uid : Int) :
    (is_user_subscribed db uid).result = .ok (sql_exists_user db uid == 1) := rfl

/-! ## C2 — probe classification -/

/-- Claim C2 counterexample: status 204 is a 200-class status code, yet
`check_url_available` classifies the probe unavailable — the code compares
`status_code == 200` exactly, not the 2xx class. -/
theorem response_204_classified_unavailable :
    check_url_available (ProbeOutcome.response 204) = false ∧ 200 ≤ 204 ∧ 204 < 300 := by
  decide

/-- Claim C2 (amended): a probe is classified available exactly when a
response was received with status code exactly 200; every other status code
(including other 2xx codes), every transport error and every timeout is
classified unavailable.  `check_url_available` is a total function into
`Bool`, so no outcome is propagated as an exception. -/
theorem check_url_available_iff_status_200 (o : ProbeOutcome) :
    check_url_available o = true ↔ o = ProbeOutcome.response 200 := by
  cases o <;> simp [check_url_available]

/-! ## C3 — probe timeout -/

/-- Claim C3: the probe call `requests.head(url)` in `check_url_available`
(bot.py line 72) passes no `timeout=` argument, so the outbound request
carries no explicit time limit. -/
theorem probe_request_has_no_timeout (url : String) :
    (probe_request url).timeout = none := rfl

/-! ## C7 — transactional rollback -/

/-- Claim C7: if the backing medium fails while the body of a `db_conn`
transaction runs, the stored state afterwards is exactly the state before the
operation (the transaction rolled back) and the very error is re-raised to
the caller, never swallowed.  Each `BotDatabase` operation is definitionally
a single `db_conn` application, hence a single transaction. -/
theorem db_conn_rolls_back_and_surfaces {α : Type} (db : Database)
    (body : Database → Except StorageError (Database × α)) (e : StorageError)
    (h : body db = .error e) :
    (db_conn db body).stored = db ∧ (db_conn db body).result = .error e := by
  simp [db_conn, h]

/-- Witness for C7: a medium that fails at once, on a one-row store. -/
theorem db_conn_rolls_back_and_surfaces_witness :
    (db_conn [{ discord_user_id := 1, is_subscribed := 1 }]
        (fun _ => (.error .sqliteError : Except StorageError (Database × Unit)))).stored
      = [{ discord_user_id := 1, is_subscribed := 1 }] ∧
    (db_conn [{ discord_user_id := 1, is_subscribed := 1 }]
        (fun _ => (.error .sqliteError : Except StorageError (Database × Unit)))).result
      = .error .sqliteError :=
  db_conn_rolls_back_and_surfaces _ _ .sqliteError rfl

/-! ## C6 — per-recipient failure isolation -/

/-- Claim C6: the dispatch loop attempts delivery to every subscribed
identity no matter which deliveries fail, and the recipients who receive the
notification are exactly those whose delivery succeeded — a failure for one
recipient never removes a later recipient from the attempt list.
`notify_subscribers` is a total function, so no delivery failure is raised
out of the loop. -/
theorem notify_attempts_every_subscriber (deliver : Int → Except DeliveryError Unit)
    (subs : List Int) :
    (notify_subscribers deliver subs).attempted = subs ∧
    (notify_subscribers deliver subs).delivered
      = subs.filter fun u => delivery_succeeded (deliver u) := by
  induction subs with
  | nil => exact ⟨rfl, rfl⟩
  | cons u rest ih =>
    cases hd : deliver u <;>
      simp [notify_subscribers, hd, delivery_succeeded, List.filter_cons, ih.1, ih.2]

/-! ## C4 — ordering of probes and dispatches in one cycle -/

/-- Claim C4 counterexample: with URLs `["A", "B"]` and every probe answering
status 200, the cycle performs the probe of `"B"` before the dispatch for
`"A"` — dispatch for one URL does not precede the probe of the next URL. -/
theorem dispatch_after_all_probes_cex :
    ¬ event_before
        (cycle_events initial_url_status ["A", "B"] fun _ => ProbeOutcome.response 200)
        (Event.dispatch "A") (Event.probe "B") := by
  unfold event_before
  decide

/-- Claim C4 (amended): within one cycle, `monitor()` first probes and
records every URL; only after the whole probe pass does the loop dispatch,
synchronously and in dict order, for each URL found available.  The trace of
a cycle is the probe/record phase followed by the dispatch phase: no dispatch
event occurs in the probe phase and nothing but dispatch events occurs in the
dispatch phase. -/
theorem cycle_probes_precede_dispatches (m : UrlStatus) (urls : List String)
    (outcome : String → ProbeOutcome) :
    cycle_events m urls outcome
      = monitor_events urls outcome ++ dispatch_events (monitor m urls outcome) ∧
    (∀ e ∈ monitor_events urls outcome, e.isDispatch = false) ∧
    (∀ e ∈ dispatch_events (monitor m urls outcome), e.isDispatch = true) := by
  refine ⟨rfl, ?_, ?_⟩
  · intro e he
    simp only [monitor_events, List.mem_flatMap, List.mem_cons, List.not_mem_nil,
      or_false] at he
    obtain ⟨u, -, he⟩ := he
    rcases he with rfl | rfl <;> rfl
  · intro e he
    simp only [dispatch_events, List.mem_flatMap] at he
    obtain ⟨p, -, he⟩ := he
    by_cases h2 : p.2 <;> simp [h2] at he
    rw [he]; rfl

/-- Witness for C4 (amended): on one URL answering 200, the probe event is
not a dispatch and the dispatch event is one. -/
theorem cycle_probes_precede_dispatches_witness :
    (Event.probe "A") ∈ monitor_events ["A"] (fun _ => ProbeOutcome.response 200) ∧
    Event.isDispatch (Event.probe "A") = false ∧
    (Event.dispatch "A")
      ∈ dispatch_events (monitor initial_url_status ["A"] fun _ => ProbeOutcome.response 200) ∧
    Event.isDispatch (Event.dispatch "A") = true :=
  ⟨by decide,
   (cycle_probes_precede_dispatches initial_url_status ["A"]
      (fun _ => ProbeOutcome.response 200)).2.1 _ (by decide),
   by decide,
   (cycle_probes_precede_dispatches initial_url_status ["A"]
      (fun _ => ProbeOutcome.response 200)).2.2 _ (by decide)⟩

/-! ## Store invariants over reachable states -/

/-- Every state the program can drive the store into has `is_subscribed = 1`
on every row (rows are only ever inserted with the column default) and no two
rows sharing a `discord_user_id` (the UNIQUE constraint). -/
theorem reachable_invariant (db : Database) (h : Reachable db) :
    (∀ r ∈ db, r.is_subscribed = 1) ∧ (row_ids db).Nodup := by
  induction h with
  | empty => exact ⟨by simp, by simp [row_ids]⟩
  | ensure _ ih => rwa [ensure_created_stored]
  | subscribe uid _ ih =>
    rename_i db _
    rw [subscribe_user_stored]
    by_cases hmem : (db.any fun r => r.discord_user_id == uid) = true
    · simpa [sql_add_user, hmem] using ih
    · rw [Bool.not_eq_true] at hmem
      have hnotin : uid ∉ row_ids db := by
        intro hu
        rw [row_ids, List.mem_map] at hu
        obtain ⟨r, hr, hru⟩ := hu
        have : db.any (fun r => r.discord_user_id == uid) = true :=
          List.any_eq_true.mpr ⟨r, hr, by simp [hru]⟩
        rw [this] at hmem
        cases hmem
      constructor
      · intro r hr
        rw [sql_add_user] at hr
        simp only [hmem, Bool.false_eq_true, if_false, List.mem_append,
          List.mem_singleton] at hr
        rcases hr with hr | hr
        · exact ih.1 r hr
        · rw [hr]
      · have hids : row_ids (sql_add_user db uid) = row_ids db ++ [uid] := by
          simp [sql_add_user, hmem, row_ids]
        rw [hids, List.nodup_append]
        refine ⟨ih.2, List.nodup_singleton _, ?_⟩
        intro b hb hb2
        rw [List.mem_singleton] at hb2
        rw [hb2] at hb
        exact hnotin hb
  | unsubscribe uid _ ih =>
    rename_i db _
    rw [unsubscribe_user_stored]
    constructor
    · intro r hr
      exact ih.1 r (List.mem_of_mem_filter hr)
    · have hmap : List.Sublist (row_ids (sql_remove_user db uid)) (row_ids db) :=
        (List.filter_sublist db).map _
      exact ih.2.sublist hmap

/-- Rows never match a `discord_user_id` that is not among the row ids. -/
theorem filter_id_eq_nil (db : Database) (uid : Int) (h : uid ∉ row_ids db) :
    db.filter (fun r => r.discord_user_id == uid) = [] := by
  induction db with
  | nil => rfl
  | cons r rest ih =>
    simp only [row_ids, List.map_cons, List.mem_cons, not_or] at h
    rw [List.filter_cons_of_neg, ih]
    · intro hm
      exact h.2 (by simpa [row_ids] using hm)
    · simp only [beq_iff_eq]
      exact fun e => h.1 e.symm

/-- With distinct row ids, `EXISTS_USER_STATEMENT` counts to `1` exactly when
the id is stored. -/
theorem exists_user_eq_one_iff (db : Database) (uid : Int)
    (hnd : (row_ids db).Nodup) :
    sql_exists_user db uid = 1 ↔ uid ∈ row_ids db := by
  induction db with
  | nil => simp [sql_exists_user, row_ids]
  | cons r rest ih =>
    simp only [row_ids, List.map_cons, List.nodup_cons] at hnd
    by_cases h : r.discord_user_id = uid
    · have hnotin : uid ∉ row_ids rest := by rw [← h]; exact hnd.1
      rw [sql_exists_user, List.filter_cons_of_pos (by simp [h]),
        List.length_cons, filter_id_eq_nil rest uid hnotin]
      simp [row_ids, h]
    · rw [sql_exists_user, List.filter_cons_of_neg (by simp [h])]
      rw [sql_exists_user] at ih
      rw [ih hnd.2]
      simp only [row_ids, List.map_cons, List.mem_cons]
      constructor
      · exact Or.inr
      · rintro (he | hm)
        · exact absurd he.symm h
        · exact hm

/-! ## C10 — flag invariant and query coherence -/

/-- Claim C10: in every reachable store state, every row has
`is_subscribed = 1`; `get_subscribed_users` therefore returns exactly the
stored ids, `is_user_subscribed` answers `true` exactly for the ids that
`get_subscribed_users` returns, and `get_user_count` equals the length of
that list. -/
theorem store_flag_and_query_coherence (db : Database) (h : Reachable db) :
    (∀ r ∈ db, r.is_subscribed = 1) ∧
    (get_subscribed_users db).result = .ok (row_ids db) ∧
    (∀ uid : Int,
      (is_user_subscribed db uid).result = .ok true ↔ uid ∈ sql_get_subscribed db) ∧
    (get_user_count db).result = .ok (sql_get_subscribed db).length := by
  obtain ⟨hall, hnd⟩ := reachable_invariant db h
  have hfil : (db.filter fun r => r.is_subscribed == 1) = db := by
    rw [List.filter_eq_self]
    intro r hr
    simp [hall r hr]
  have hgs : sql_get_subscribed db = row_ids db := by
    rw [sql_get_subscribed, hfil, row_ids]
  refine ⟨hall, ?_, ?_, ?_⟩
  · rw [get_subscribed_users_result, hgs]
  · intro uid
    rw [is_user_subscribed_result, hgs]
    simp only [Except.ok.injEq, beq_iff_eq]
    exact exists_user_eq_one_iff db uid hnd
  · rw [get_user_count_result, hgs]
    simp [sql_user_count, row_ids]

/-- Witness for C10: the reachable one-subscriber store obtained by
subscribing id `5` to the fresh store. -/
theorem store_flag_and_query_coherence_witness :
    (∀ r ∈ (subscribe_user [] 5).stored, r.is_subscribed = 1) ∧
    (get_subscribed_users (subscribe_user [] 5).stored).result
      = .ok (row_ids (subscribe_user [] 5).stored) ∧
    (∀ uid : Int,
      (is_user_subscribed (subscribe_user [] 5).stored uid).result = .ok true ↔
        uid ∈ sql_get_subscribed (subscribe_user [] 5).stored) ∧
    (get_user_count (subscribe_user [] 5).stored).result
      = .ok (sql_get_subscribed (subscribe_user [] 5).stored).length :=
  store_flag_and_query_coherence _ (Reachable.subscribe 5 Reachable.empty)

/-! ## C5 — idempotent subscribe -/

/-- Claim C5: subscribing an identity already present succeeds (no error),
stores exactly the previous state (`INSERT OR IGNORE` hits the UNIQUE
constraint and is ignored), leaves `get_user_count` and
`get_subscribed_users` unchanged, and — in any reachable state — the store
keeps at most one row per identity. -/
theorem subscribe_existing_is_noop (db : Database) (uid : Int)
    (hmem : (db.any fun r => r.discord_user_id == uid) = true) :
    (subscribe_user db uid).result = .ok () ∧
    (subscribe_user db uid).stored = db ∧
    (get_user_count (subscribe_user db uid).stored).result
      = (get_user_count db).result ∧
    (get_subscribed_users (subscribe_user db uid).stored).result
      = (get_subscribed_users db).result ∧
    (Reachable db → (row_ids (subscribe_user db uid).stored).Nodup) := by
  have hstored : (subscribe_user db uid).stored = db := by
    simp [subscribe_user_stored, sql_add_user, hmem]
  refine ⟨rfl, hstored, by rw [hstored], by rw [hstored], fun hr => ?_⟩
  rw [hstored]
  exact (reachable_invariant db hr).2

/-- Witness for C5: re-subscribing id `5` on a store already holding it. -/
theorem subscribe_existing_is_noop_witness :
    (([{ discord_user_id := 5, is_subscribed := 1 }] : Database).any
        fun r => r.discord_user_id == 5) = true ∧
    (subscribe_user [{ discord_user_id := 5, is_subscribed := 1 }] 5).stored
      = [{ discord_user_id := 5, is_subscribed := 1 }] :=
  ⟨by decide, (subscribe_existing_is_noop _ 5 (by decide)).2.1⟩

/-! ## C1 — the subscriber cap -/

/-- Claim C1 (code bug): `MAX_USER_CAP` is declared but `subscribe_user`
never consults it — with the store already holding `MAX_USER_CAP`
subscribers, subscribing a fresh identity succeeds (no `CapacityExceeded`
exists anywhere in the source) and writes an additional row, driving the
count to `MAX_USER_CAP + 1`. -/
theorem subscribe_at_cap_still_inserts (db : Database) (uid : Int)
    (hcap : sql_user_count db = MAX_USER_CAP)
    (habs : (db.any fun r => r.discord_user_id == uid) = false) :
    (subscribe_user db uid).result = .ok () ∧
    sql_user_count (subscribe_user db uid).stored = MAX_USER_CAP + 1 := by
  have hstored : (subscribe_user db uid).stored
      = db ++ [{ discord_user_id := uid, is_subscribed := 1 }] := by
    simp [subscribe_user_stored, sql_add_user, habs]
  refine ⟨rfl, ?_⟩
  rw [hstored]
  rw [sql_user_count] at hcap ⊢
  rw [List.length_append, hcap]
  rfl

/-- Witness for C1: a store holding ids `0, ..., 9999` — exactly
`MAX_USER_CAP` rows — still accepts the fresh id `-1`. -/
theorem subscribe_at_cap_still_inserts_witness :
    sql_user_count cap_db = MAX_USER_CAP ∧
    (cap_db.any fun r => r.discord_user_id == (-1 : Int)) = false ∧
    (subscribe_user cap_db (-1)).result = .ok () ∧
    sql_user_count (subscribe_user cap_db (-1)).stored = MAX_USER_CAP + 1 := by
  have h1 : sql_user_count cap_db = MAX_USER_CAP := by
    rw [sql_user_count, cap_db, List.length_map, List.length_range]
  have h2 : (cap_db.any fun r => r.discord_user_id == (-1 : Int)) = false := by
    rw [Bool.eq_false_iff]
    intro hany
    rw [cap_db, List.any_eq_true] at hany
    obtain ⟨r, hr, hbeq⟩ := hany
    rw [List.mem_map] at hr
    obtain ⟨i, hi, rfl⟩ := hr
    simp only [beq_iff_eq] at hbeq
    omega
  exact ⟨h1, h2, (subscribe_at_cap_still_inserts cap_db (-1) h1 h2).1,
    (subscribe_at_cap_still_inserts cap_db (-1) h1 h2).2⟩

/-! ## Availability tracker lemmas -/

/-- Looking up the key just assigned yields the assigned value. -/
theorem url_status_for_record_self (m : UrlStatus) (u : String) (a : Bool) :
    url_status_for (record_status m u a) u = some a := by
  induction m with
  | nil => simp [record_status, url_status_for]
  | cons p rest ih =>
    rw [record_status]
    by_cases h : p.1 == u
    · simp [h, url_status_for]
    · simp only [h, Bool.false_eq_true, if_false]
      simp only [url_status_for] at ih ⊢
      rw [List.find?_cons_of_neg _ (by simpa using h)]
      exact ih

/-- Assigning one key leaves lookups of a different key unchanged. -/
theorem url_status_for_record_other (m : UrlStatus) (w u : String) (a : Bool)
    (h : ¬ w = u) :
    url_status_for (record_status m w a) u = url_status_for m u := by
  induction m with
  | nil => simp [record_status, url_status_for, h]
  | cons p rest ih =>
    rw [record_status]
    by_cases hp : p.1 == w
    · have hpw : p.1 = w := by simpa using hp
      have hne : (p.1 == u) = false := by simp [hpw, h]
      rw [if_pos hp]
      simp [url_status_for, hne]
    · rw [if_neg hp]
      by_cases hu : p.1 == u
      · simp [url_status_for, hu]
      · simp only [url_status_for] at ih
        simp [url_status_for, hu, ih]

/-- A monitor pass over URLs not containing `u` leaves `u`'s status alone. -/
theorem url_status_for_monitor_stable (m : UrlStatus) (urls : List String)
    (outcome : String → ProbeOutcome) (u : String) (h : u ∉ urls) :
    url_status_for (monitor m urls outcome) u = url_status_for m u := by
  induction urls generalizing m with
  | nil => rfl
  | cons v rest ih =>
    rw [monitor]
    have hv : ¬ v = u := fun e => h (e ▸ List.mem_cons_self v rest)
    have hr : u ∉ rest := fun hm => h (List.mem_cons_of_mem _ hm)
    rw [ih _ hr, url_status_for_record_other _ _ _ _ hv]

/-- After a monitor pass, every probed URL holds its fresh probe result,
whatever it held before. -/
theorem url_status_for_monitor_mem (m : UrlStatus) (urls : List String)
    (outcome : String → ProbeOutcome) (u : String) (hu : u ∈ urls) :
    url_status_for (monitor m urls outcome) u
      = some (check_url_available (outcome u)) := by
  induction urls generalizing m with
  | nil => cases hu
  | cons v rest ih =>
    rw [monitor]
    by_cases hr : u ∈ rest
    · exact ih _ hr
    · have hv : v = u := by
        rcases List.mem_cons.mp hu with h | h
        · exact h.symm
        · exact absurd h hr
      subst hv
      rw [url_status_for_monitor_stable _ _ _ _ hr, url_status_for_record_self]

/-! ## C9 — status is unknown until probed -/

/-- Claim C9: on a fresh `WebsiteMonitor` (as after any process restart,
since `_url_status` lives only in memory) `url_status_for` returns `none` —
Python's `None`, a value distinct from the boolean `False` — for every URL,
and once a URL has been probed in a monitor pass it returns `some` boolean,
namely the fresh probe result. -/
theorem status_unknown_until_probed :
    (∀ url, url_status_for initial_url_status url = none) ∧
    (∀ (m : UrlStatus) (urls : List String) (outcome : String → ProbeOutcome)
      (u : String), u ∈ urls →
      url_status_for (monitor m urls outcome) u
        = some (check_url_available (outcome u))) :=
  ⟨fun _ => rfl, url_status_for_monitor_mem⟩

/-- Witness for C9: the fresh tracker answers `none` for `"A"`; after one
pass probing `"A"` with a timeout, it answers `some false`. -/
theorem status_unknown_until_probed_witness :
    url_status_for initial_url_status "A" = none ∧
    "A" ∈ ["A"] ∧
    url_status_for (monitor initial_url_status ["A"] fun _ => ProbeOutcome.timeout) "A"
      = some (check_url_available ProbeOutcome.timeout) :=
  ⟨status_unknown_until_probed.1 "A", by decide,
   status_unknown_until_probed.2 _ _ _ _ (by decide)⟩

/-! ## C8 — non-edge-triggered notification -/

/-- Keys present after an assignment were present before, or are the
assigned key. -/
theorem status_keys_record (m : UrlStatus) (u : String) (a : Bool) :
    ∀ w ∈ status_keys (record_status m u a), w ∈ status_keys m ∨ w = u := by
  induction m with
  | nil => simp [record_status, status_keys]
  | cons p rest ih =>
    intro w hw
    rw [record_status] at hw
    by_cases h : p.1 == u
    · rw [if_pos h] at hw
      simp only [status_keys, List.map_cons, List.mem_cons] at hw ⊢
      tauto
    · rw [if_neg h] at hw
      simp only [status_keys, List.map_cons, List.mem_cons] at hw ⊢
      rcases hw with h1 | h1
      · exact Or.inl (Or.inl h1)
      · rcases ih w h1 with h2 | h2
        · exact Or.inl (Or.inr h2)
        · exact Or.inr h2

/-- Dict assignment preserves distinctness of keys. -/
theorem status_keys_record_nodup (m : UrlStatus) (u : String) (a : Bool)
    (h : (status_keys m).Nodup) :
    (status_keys (record_status m u a)).Nodup := by
  induction m with
  | nil => simp [record_status, status_keys]
  | cons p rest ih =>
    rw [record_status]
    simp only [status_keys, List.map_cons, List.nodup_cons] at h
    by_cases hp : p.1 == u
    · rw [if_pos hp]
      simp only [status_keys, List.map_cons, List.nodup_cons]
      exact h
    · rw [if_neg hp]
      simp only [status_keys, List.map_cons, List.nodup_cons]
      refine ⟨?_, ih h.2⟩
      intro hmem
      rcases status_keys_record rest u a p.1 hmem with h2 | h2
      · exact h.1 h2
      · exact hp (by simp [h2])

/-- Filtering a keyed fan-out list for one key. -/
theorem filter_url_map (subs : List Int) (w u : String) :
    ((subs.map fun s => (w, s)).filter fun q => q.1 == u)
      = if w == u then subs.map (fun s => (w, s)) else [] := by
  induction subs with
  | nil => simp
  | cons s rest ih =>
    by_cases h : w == u
    · simp [List.filter_cons, h, ih]
    · simp [List.filter_cons, h, ih]

/-- With distinct keys, the dict holds exactly one entry for a key just
assigned: the assigned one. -/
theorem filter_record_self (m : UrlStatus) (u : String) (a : Bool)
    (hnd : (status_keys m).Nodup) :
    (record_status m u a).filter (fun p => p.1 == u) = [(u, a)] := by
  induction m with
  | nil => simp [record_status]
  | cons p rest ih =>
    simp only [status_keys, List.map_cons, List.nodup_cons] at hnd
    rw [record_status]
    by_cases hp : p.1 == u
    · have hpe : p.1 = u := by simpa using hp
      rw [if_pos hp, List.filter_cons_of_pos (by simpa using hp)]
      have hnil : rest.filter (fun q => q.1 == u) = [] := by
        rw [List.filter_eq_nil_iff]
        intro q hq
        simp only [beq_iff_eq]
        intro hqu
        exact hnd.1 (by
          rw [hpe]
          rw [← hqu]
          exact List.mem_map_of_mem _ hq)
      rw [hnil, hpe]
    · rw [if_neg hp, List.filter_cons_of_neg (by simpa using hp), ih hnd.2]

/-- Assigning a different key does not change the entries for `u`. -/
theorem filter_record_other (m : UrlStatus) (w u : String) (a : Bool)
    (h : ¬ w = u) :
    (record_status m w a).filter (fun p => p.1 == u)
      = m.filter (fun p => p.1 == u) := by
  induction m with
  | nil => simp [record_status, h]
  | cons p rest ih =>
    rw [record_status]
    by_cases hp : p.1 == w
    · have hpe : p.1 = w := by simpa using hp
      rw [if_pos hp, List.filter_cons_of_neg (by simp [hpe, h]),
        List.filter_cons_of_neg (by simp [hpe, h])]
    · rw [if_neg hp]
      by_cases hu : p.1 == u
      · rw [List.filter_cons_of_pos (by simpa using hu),
          List.filter_cons_of_pos (by simpa using hu), ih]
      · rw [List.filter_cons_of_neg (by simpa using hu),
          List.filter_cons_of_neg (by simpa using hu), ih]

/-- A monitor pass over URLs avoiding `u` does not change `u`'s entries. -/
theorem filter_monitor_stable (m : UrlStatus) (urls : List String)
    (outcome : String → ProbeOutcome) (u : String) (h : u ∉ urls) :
    (monitor m urls outcome).filter (fun p => p.1 == u)
      = m.filter (fun p => p.1 == u) := by
  induction urls generalizing m with
  | nil => rfl
  | cons v rest ih =>
    rw [monitor]
    have hv : ¬ v = u := fun e => h (e ▸ List.mem_cons_self v rest)
    have hr : u ∉ rest := fun hm => h (List.mem_cons_of_mem _ hm)
    rw [ih _ hr, filter_record_other _ _ _ _ hv]

/-- After a monitor pass with distinct prior keys, the dict holds exactly one
entry for each probed URL: its fresh probe result. -/
theorem filter_monitor (m : UrlStatus) (urls : List String)
    (outcome : String → ProbeOutcome) (u : String)
    (hnd : (status_keys m).Nodup) (hu : u ∈ urls) :
    (monitor m urls outcome).filter (fun p => p.1 == u)
      = [(u, check_url_available (outcome u))] := by
  induction urls generalizing m with
  | nil => cases hu
  | cons v rest ih =>
    rw [monitor]
    by_cases hr : u ∈ rest
    · exact ih _ (status_keys_record_nodup m v _ hnd) hr
    · have hv : v = u := by
        rcases List.mem_cons.mp hu with h | h
        · exact h.symm
        · exact absurd h hr
      subst hv
      rw [filter_monitor_stable _ _ _ _ hr, filter_record_self m v _ hnd]

/-- The notifications referencing `u` are exactly those its dict entries fan
out. -/
theorem filter_cycle_notifications (st : UrlStatus) (subs : List Int) (u : String) :
    (cycle_notifications st subs).filter (fun q => q.1 == u)
      = (st.filter (fun p => p.1 == u)).flatMap
          (fun p => if p.2 then subs.map (fun s => (u, s)) else []) := by
  induction st with
  | nil => rfl
  | cons p rest ih =>
    rw [cycle_notifications, List.flatMap_cons, List.filter_append]
    have htail :
        (rest.flatMap fun q => if q.2 then subs.map (fun s => (q.1, s)) else [])
          = cycle_notifications rest subs := rfl
    rw [htail, ih]
    by_cases hp : p.1 == u
    · have hpe : p.1 = u := by simpa using hp
      rw [List.filter_cons_of_pos (by simpa using hp), List.flatMap_cons]
      congr 1
      by_cases h2 : p.2
      · rw [if_pos h2, if_pos h2, filter_url_map, if_pos hp, hpe]
      · rw [if_neg h2, if_neg h2]
        rfl
    · rw [List.filter_cons_of_neg (by simpa using hp)]
      have hnil :
          ((if p.2 then subs.map fun s => (p.1, s) else []).filter
            fun q => q.1 == u) = [] := by
        by_cases h2 : p.2
        · rw [if_pos h2, filter_url_map, if_neg hp]
        · rw [if_neg h2]
          rfl
      rw [hnil, List.nil_append]

/-- Claim C8: notification is level- not edge-triggered.  Whatever the
tracker held before the cycle (`m` is arbitrary, keys distinct as in any
dict), a URL whose probe answers a 200 in this cycle produces exactly one
notification per currently subscribed identity, and one whose probe fails
produces none — the previous cycle's state plays no role, so a URL that
stays available keeps notifying every subscriber each cycle. -/
theorem available_url_notifies_all_subscribers (m : UrlStatus)
    (urls : List String) (outcome : String → ProbeOutcome) (subs : List Int)
    (u : String) (hnd : (status_keys m).Nodup) (hu : u ∈ urls) :
    (cycle_notifications (monitor m urls outcome) subs).filter
        (fun q => q.1 == u)
      = if check_url_available (outcome u) then subs.map (fun s => (u, s))
        else [] := by
  rw [filter_cycle_notifications, filter_monitor m urls outcome u hnd hu,
    List.flatMap_cons]
  simp

/-- Witness for C8: URL `"A"` was already available in the previous cycle
(`m = [("A", true)]`), answers 200 again, and both subscribers `7` and `8`
are notified again. -/
theorem available_url_notifies_all_subscribers_witness :
    (status_keys [("A", true)]).Nodup ∧
    "A" ∈ ["A"] ∧
    (cycle_notifications
        (monitor [("A", true)] ["A"] fun _ => ProbeOutcome.response 200)
        [7, 8]).filter (fun q => q.1 == "A")
      = if check_url_available (ProbeOutcome.response 200) then
          [7, 8].map (fun s => ("A", s))
        else [] :=
  ⟨by decide, by decide,
   available_url_notifies_all_subscribers [("A", true)] ["A"]
     (fun _ => ProbeOutcome.response 200) [7, 8] "A" (by decide) (by decide)⟩

end WebsiteUpBot
